import Mathlib

/-!
Verification of the TrainPI / SkillSpring frontend route handlers and page
logic.  Each definition below is a shallow embedding of a function from the
repository source; the file name and symbol it comes from are given in the
doc comment.  Machine details that no claim depends on (React rendering,
network transport, log output) are omitted; every branch that decides a
status code, a returned value or a state update is kept exactly.
-/

/-- JavaScript truthiness test for a `string | null | undefined` value:
`!v` is `true` exactly when the value is absent (`null`/`undefined`) or the
empty string. -/
def jsFalsy : Option String → Bool
  | none => true
  | some s => s.isEmpty

/-- JavaScript `v || d` for a `string | null` value `v`: yields `d` when `v`
is falsy (absent or empty), otherwise `v` itself. -/
def jsOrDefault (v : Option String) (d : String) : String :=
  match v with
  | none => d
  | some s => if s.isEmpty then d else s

/-! ## Career match route — `src/frontend/app/api/career/match/route.ts` -/

/-- One entry of the `mockCareers` array built by the career-match `GET`
handler. -/
structure CareerMatch where
  id : String
  title : String
  icon : String
  salaryRange : String
  matchScore : Nat
  description : String
deriving DecidableEq, Repr

/-- The hard-coded `mockCareers` array of
`src/frontend/app/api/career/match/route.ts` (icon emoji replaced by a
textual tag, which no claim inspects). -/
def mockCareers : List CareerMatch :=
  [ ⟨"1", "Software Engineer", "laptop", "$80k - $150k", 95,
      "Build and maintain software applications"⟩,
    ⟨"2", "Data Scientist", "chart", "$90k - $160k", 88,
      "Analyze data to drive business decisions"⟩,
    ⟨"3", "UX Designer", "palette", "$70k - $130k", 82,
      "Design user-centered digital experiences"⟩,
    ⟨"4", "Product Manager", "rocket", "$100k - $180k", 78,
      "Guide product development and strategy"⟩,
    ⟨"5", "DevOps Engineer", "gear", "$85k - $155k", 75,
      "Streamline development and deployment processes"⟩ ]

/-- Response body of the career-match `GET` handler. -/
structure MatchResponse where
  careers : List CareerMatch
deriving DecidableEq, Repr

/-- The `GET` handler of `src/frontend/app/api/career/match/route.ts`.
It reads the `answers` query parameter but never uses it, and after a
simulated delay returns `{ careers: mockCareers }`. -/
def careerMatchGET (answers : Option String) : MatchResponse :=
  let _ := answers
  ⟨mockCareers⟩

/-! ## Roadmap route — `src/app/api/career/roadmap/route.ts` -/

/-- One lesson of a mock roadmap milestone. -/
structure RoadmapLesson where
  id : String
  title : String
  completed : Bool
  hours : Nat
deriving DecidableEq, Repr

/-- One milestone (tier) of the mock roadmap. -/
structure RoadmapMilestone where
  id : String
  level : String
  title : String
  estimatedHours : Nat
  lessons : List RoadmapLesson
deriving DecidableEq, Repr

/-- The roadmap object returned by the roadmap `GET` handler. -/
structure MockRoadmap where
  role : String
  milestones : List RoadmapMilestone
deriving DecidableEq, Repr

/-- The hard-coded `milestones` array of the `mockRoadmap` object in
`src/app/api/career/roadmap/route.ts`. -/
def mockRoadmapMilestones : List RoadmapMilestone :=
  [ ⟨"1", "Foundational", "Programming Basics", 120,
      [ ⟨"1", "Variables and Data Types", true, 8⟩,
        ⟨"2", "Control Structures", true, 12⟩,
        ⟨"3", "Functions and Scope", false, 10⟩,
        ⟨"4", "Object-Oriented Programming", false, 15⟩ ]⟩,
    ⟨"2", "Intermediate", "Web Development", 200,
      [ ⟨"5", "HTML & CSS Fundamentals", false, 20⟩,
        ⟨"6", "JavaScript ES6+", false, 25⟩,
        ⟨"7", "React Framework", false, 30⟩,
        ⟨"8", "API Integration", false, 18⟩ ]⟩,
    ⟨"3", "Advanced", "System Design & Architecture", 150,
      [ ⟨"9", "Database Design", false, 25⟩,
        ⟨"10", "Microservices Architecture", false, 30⟩,
        ⟨"11", "Performance Optimization", false, 20⟩,
        ⟨"12", "Security Best Practices", false, 22⟩ ]⟩ ]

/-- The `GET` handler of `src/app/api/career/roadmap/route.ts`: reads the
`role` query parameter and returns the fixed mock roadmap with
`role: role || "Software Engineer"`.  It contains no role validation and no
error path. -/
def roadmapGET (role : Option String) : MockRoadmap :=
  ⟨jsOrDefault role "Software Engineer", mockRoadmapMilestones⟩

/-! ## Career page — `src/app/career/page.tsx`

The same skill/interest selection helpers appear verbatim in
`src/frontend/app/career/roadmap-generator/page.tsx` (lines 77–109); one
embedding covers both files. -/

/-- One entry of the static `skillSuggestions` table of
`src/app/career/page.tsx` (the icon component reference is kept as its
name). -/
structure Skill where
  name : String
  category : String
  icon : String
deriving DecidableEq, Repr

/-- The static `skillSuggestions` table of `src/app/career/page.tsx`. -/
def skillSuggestions : List Skill :=
  [ ⟨"JavaScript", "Technology", "Code"⟩,
    ⟨"Python", "Technology", "Code"⟩,
    ⟨"React", "Technology", "Code"⟩,
    ⟨"Node.js", "Technology", "Code"⟩,
    ⟨"SQL", "Technology", "BarChart3"⟩,
    ⟨"Machine Learning", "Technology", "Zap"⟩,
    ⟨"UI/UX Design", "Design", "Palette"⟩,
    ⟨"Graphic Design", "Design", "Palette"⟩,
    ⟨"Figma", "Design", "Palette"⟩,
    ⟨"Adobe Creative Suite", "Design", "Palette"⟩,
    ⟨"Data Analysis", "Analytics", "BarChart3"⟩,
    ⟨"Excel", "Analytics", "BarChart3"⟩,
    ⟨"Tableau", "Analytics", "BarChart3"⟩,
    ⟨"Google Analytics", "Analytics", "BarChart3"⟩,
    ⟨"Project Management", "Management", "Target"⟩,
    ⟨"Leadership", "Management", "Users"⟩,
    ⟨"Communication", "Management", "Users"⟩,
    ⟨"Digital Marketing", "Marketing", "Globe"⟩,
    ⟨"SEO", "Marketing", "Globe"⟩,
    ⟨"Content Writing", "Marketing", "Globe"⟩ ]

/-- The mutable component state of `CareerPage`
(`src/app/career/page.tsx`): one field per `useState` hook that the
embedded helpers can read or write. -/
structure CareerPageState where
  selectedSkills : List String
  selectedInterests : List String
  customSkill : String
  customInterest : String
  targetRole : String
deriving DecidableEq, Repr

/-- `addSkill` of `src/app/career/page.tsx` (identical in
`src/frontend/app/career/roadmap-generator/page.tsx`): append the skill
unless `selectedSkills.includes(skill)`. -/
def addSkill (selectedSkills : List String) (skill : String) : List String :=
  if skill ∈ selectedSkills then selectedSkills else selectedSkills ++ [skill]

/-- `removeSkill` of `src/app/career/page.tsx`: keep the entries different
from the removed skill. -/
def removeSkill (selectedSkills : List String) (skill : String) : List String :=
  selectedSkills.filter (fun s => s ≠ skill)

/-- `addCustomSkill` of `src/app/career/page.tsx`: append the trimmed
custom skill when it is non-empty and not yet selected (and clear the
input field, which is not part of the list). -/
def addCustomSkill (selectedSkills : List String) (customSkill : String) :
    List String :=
  let t := customSkill.trim
  if ¬t.isEmpty ∧ t ∉ selectedSkills then selectedSkills ++ [t]
  else selectedSkills

/-- `addInterest` of `src/app/career/page.tsx`: same shape as `addSkill`
over `selectedInterests`. -/
def addInterest (selectedInterests : List String) (interest : String) :
    List String :=
  if interest ∈ selectedInterests then selectedInterests
  else selectedInterests ++ [interest]

/-- `removeInterest` of `src/app/career/page.tsx`. -/
def removeInterest (selectedInterests : List String) (interest : String) :
    List String :=
  selectedInterests.filter (fun i => i ≠ interest)

/-- `addCustomInterest` of `src/app/career/page.tsx`. -/
def addCustomInterest (selectedInterests : List String)
    (customInterest : String) : List String :=
  let t := customInterest.trim
  if ¬t.isEmpty ∧ t ∉ selectedInterests then selectedInterests ++ [t]
  else selectedInterests

/-- One step of the `skillSuggestions.reduce(...)` building `groupedSkills`
in `src/app/career/page.tsx`: a JavaScript object keyed by category in key
insertion order is an association list; a new category is appended, an
existing one has the skill pushed onto its list. -/
def insertGrouped (acc : List (String × List Skill)) (s : Skill) :
    List (String × List Skill) :=
  if acc.any (fun p => p.1 = s.category) then
    acc.map (fun p => if p.1 = s.category then (p.1, p.2 ++ [s]) else p)
  else acc ++ [(s.category, [s])]

/-- `groupedSkills` of `src/app/career/page.tsx`: the static suggestion
table grouped by category. -/
def groupedSkills : List (String × List Skill) :=
  skillSuggestions.foldl insertGrouped []

/-- `getAvailableSkillSuggestions` of `src/app/career/page.tsx`
(lines 242–253): per category, the suggested skills whose names are not in
`selectedSkills`; categories whose filtered list is empty are dropped.  It
reads only `groupedSkills` (static) and `state.selectedSkills`. -/
def getAvailableSkillSuggestions (state : CareerPageState) :
    List (String × List Skill) :=
  groupedSkills.foldl
    (fun acc p =>
      let availableSkills :=
        p.2.filter (fun sk => decide (sk.name ∉ state.selectedSkills))
      if availableSkills.length > 0 then acc ++ [(p.1, availableSkills)]
      else acc)
    []

/-! ## Interests route — `src/frontend/app/api/interests/route.ts` -/

/-- Outcome of the backend `fetch` in the interests `GET` handler: the
request can complete with an OK status (carrying the optional `interests`
field of the parsed JSON), complete with a non-OK status, or throw
(backend unreachable / network error). -/
inductive InterestsFetch where
  | ok (interests : Option (List String))
  | badStatus
  | unreachable
deriving DecidableEq, Repr

/-- Response of the interests `GET` handler: HTTP status, the `interests`
array, and the optional `source` flag. -/
structure InterestsResponse where
  status : Nat
  interests : List String
  source : Option String
deriving DecidableEq, Repr

/-- The `fallbackInterests` array, written twice (identically) in
`src/frontend/app/api/interests/route.ts`. -/
def fallbackInterests : List String :=
  ["Technology", "Design", "Data Science", "Business", "AI/ML",
   "Cloud Computing", "Cybersecurity", "Marketing", "Finance", "Healthcare"]

/-- The `GET` handler of `src/frontend/app/api/interests/route.ts`:
an OK backend response yields `{ interests: data.interests || [] }` with
status 200; a non-OK response yields the fallback list flagged
`source: "fallback"` with status 200; a thrown fetch (backend
unreachable) is caught and yields the fallback list with status 500 and
no flag. -/
def interestsGET : InterestsFetch → InterestsResponse
  | .ok interests => ⟨200, interests.getD [], none⟩
  | .badStatus => ⟨200, fallbackInterests, some "fallback"⟩
  | .unreachable => ⟨500, fallbackInterests, none⟩

/-! ## Dashboard page — `src/frontend/app/dashboard/page.tsx` -/

/-- Outcome of one of the two `Promise.allSettled` entries in
`fetchDashboardData`: fulfilled with a truthy value, fulfilled with a
falsy value (the helper functions return `null` on their own fetch
errors), or rejected. -/
inductive SettledOutcome where
  | fulfilledValue
  | fulfilledNull
  | rejected
deriving DecidableEq, Repr

/-- Whether a settled result passes the
`res.status === "fulfilled" && res.value` guard. -/
def SettledOutcome.applied : SettledOutcome → Bool
  | .fulfilledValue => true
  | _ => false

/-- Which dashboard dataset ends up in the `dashboardData` state.  The
record payloads (the large `generateMockData()` constant and the
field-by-field spread merges) are abstracted to which of the two backend
results were merged over the mock baseline; no claim inspects the payload
fields, and every branch of the source is represented. -/
inductive DashDataKind where
  | mock
  | merged (progressApplied : Bool) (recsApplied : Bool)
deriving DecidableEq, Repr

/-- Final component state produced by one run of `fetchDashboardData`:
the `dashboardData` and `error` `useState` values after the call. -/
structure ClientDashState where
  dashboardData : Option DashDataKind
  error : Option String
deriving DecidableEq, Repr

/-- `fetchDashboardData` of `src/frontend/app/dashboard/page.tsx`
(lines 317–381): with no session user id it sets mock data; otherwise it
clears `error`, awaits both backend reads via `Promise.allSettled`, and
merges each fulfilled truthy result over the mock baseline; if anything in
the `try` block throws, the `catch` sets mock data.  No path sets a
non-null `error` or leaves `dashboardData` unset. -/
def fetchDashboardData (sessionUserId : Option String)
    (progressRes recsRes : SettledOutcome) (threw : Bool) :
    ClientDashState :=
  match sessionUserId with
  | none => ⟨some .mock, none⟩
  | some _ =>
    if threw then ⟨some .mock, none⟩
    else ⟨some (.merged progressRes.applied recsRes.applied), none⟩

/-! ## Write endpoints — chat save, lesson save, chat upload -/

/-- A JSON response: HTTP status plus the `message` and `error` fields of
the body (other body fields — echoed ids, inserted rows, file URLs — are
not inspected by any claim). -/
structure ApiResponse where
  status : Nat
  message : Option String
  error : Option String
deriving DecidableEq, Repr

/-- A response carries a `{message|error}` body. -/
def ApiResponse.hasErrBody (r : ApiResponse) : Bool :=
  r.message.isSome || r.error.isSome

/-- Parsed request body of `src/app/api/chat/save/route.ts` (string fields
as `Option String`; `messages` as an optional array whose element details
do not matter). -/
structure ChatSaveBody where
  userId : Option String
  conversationId : Option String
  messages : Option (List String)
  uploadedFiles : Option (List String)
  explanationLevel : Option String
deriving DecidableEq, Repr

/-- The `!messages || messages.length === 0` guard of the chat-save
handler. -/
def msgsEmpty : Option (List String) → Bool
  | none => true
  | some l => l.isEmpty

/-- The `POST` handler of `src/app/api/chat/save/route.ts`.  `none` stands
for a request whose JSON body fails to parse, in which case the `catch`
returns 500; otherwise the three required-field guards return 400 in
order, and the fall-through (after a simulated save) returns 200. -/
def chatSavePOST : Option ChatSaveBody → ApiResponse
  | none => ⟨500, some "Failed to save conversation", none⟩
  | some b =>
    if jsFalsy b.userId then ⟨400, some "User ID is required", none⟩
    else if jsFalsy b.conversationId then
      ⟨400, some "Conversation ID is required", none⟩
    else if msgsEmpty b.messages then ⟨400, some "No messages to save", none⟩
    else ⟨200, some "Conversation saved successfully", none⟩

/-- Parsed request body of the lesson-save handler
(`src/unnamed/part_003`). -/
structure LessonSaveBody where
  lesson_id : Option String
  user_id : Option String
  file_name : Option String
  framework : Option String
  explanation_level : Option String
deriving DecidableEq, Repr

/-- Outcome of the `supabase.from("user_lessons").insert(...)` call in the
lesson-save handler: success, an error value in the returned record, or a
thrown exception caught by the surrounding `try`. -/
inductive SupabaseOutcome where
  | ok
  | err (msg : String)
  | exn (msg : String)
deriving DecidableEq, Repr

/-- The `!lesson_id || !user_id || !file_name` guard of the lesson-save
handler. -/
def lessonFieldsMissing (b : LessonSaveBody) : Bool :=
  jsFalsy b.lesson_id || jsFalsy b.user_id || jsFalsy b.file_name

/-- The `POST` handler of `src/unnamed/part_003`: 400 when a required
field is missing (the insert is never attempted), 500 with `message` and
`error` fields when the insert reports an error or throws, 200 on
success. -/
def lessonSavePOST (b : LessonSaveBody) (db : SupabaseOutcome) :
    ApiResponse :=
  if lessonFieldsMissing b then ⟨400, some "Missing required fields", none⟩
  else
    match db with
    | .ok => ⟨200, some "Lesson saved successfully", none⟩
    | .err m => ⟨500, some "Failed to save lesson", some m⟩
    | .exn m => ⟨500, some "An unexpected error occurred", some m⟩

/-- The `POST` handler of `src/app/api/chat/upload/route.ts`.  The outer
`Option` is the `formData()` parse (`none`: it threw, the `catch` returns
500); the inner `Option String` is `formData.get("file")` (the file name;
`none`: no file, 400).  With a file present the handler fabricates ids and
returns 200. -/
def chatUploadPOST : Option (Option String) → ApiResponse
  | none => ⟨500, none, some "Failed to upload file"⟩
  | some none => ⟨400, none, some "No file uploaded"⟩
  | some (some _) => ⟨200, some "File uploaded successfully", none⟩

/-! ## Skills route — `src/unnamed/part_008` -/

/-- The JSON value a skills/frameworks fetch can return: either an array
of strings or an object with an optional `skills` field. -/
inductive SkillsJson where
  | arr (items : List String)
  | obj (skills : Option (List String))
deriving DecidableEq, Repr

/-- Outcome of one backend fetch in the skills `GET` handler. -/
inductive FetchResult where
  | ok (body : SkillsJson)
  | notOk
deriving DecidableEq, Repr

/-- `Array.isArray(data) ? data : data.skills || []` for the skills
fetch. -/
def extractSkillsPayload : SkillsJson → List String
  | .arr items => items
  | .obj skills => skills.getD []

/-- `Array.isArray(data) ? data : []` for the frameworks fetch. -/
def extractFrameworksPayload : SkillsJson → List String
  | .arr items => items
  | .obj _ => []

/-- `Array.from(new Set(l))` keeps the first occurrence of each element in
order; `seen` accumulates the elements already emitted. -/
def jsSetDedupGo (seen : List String) : List String → List String
  | [] => []
  | x :: xs =>
    if x ∈ seen then jsSetDedupGo seen xs
    else x :: jsSetDedupGo (x :: seen) xs

/-- `Array.from(new Set(l))`. -/
def jsSetDedup (l : List String) : List String :=
  jsSetDedupGo [] l

/-- The `fallbackSkills` array, written twice (identically) in
`src/unnamed/part_008`. -/
def fallbackSkills : List String :=
  ["JavaScript", "Python", "React", "Node.js", "TypeScript", "HTML", "CSS",
   "Java", "C++", "SQL", "MongoDB", "PostgreSQL", "AWS", "Docker",
   "Kubernetes", "Git", "Linux", "Machine Learning", "Data Analysis",
   "UI/UX Design", "Project Management", "Agile", "Scrum", "DevOps"]

/-- Response of the skills `GET` handler. -/
structure SkillsResponse where
  status : Nat
  skills : List String
deriving DecidableEq, Repr

/-- The `GET` handler of `src/unnamed/part_008`: fetch skills and
frameworks (a non-OK response leaves the corresponding list empty),
combine them with `Array.from(new Set([...skillsData, ...frameworksData]))`,
and return the combination when non-empty, the fallback list otherwise;
`none` stands for a thrown error, caught and answered with the fallback
list at status 500. -/
def skillsGET : Option (FetchResult × FetchResult) → SkillsResponse
  | none => ⟨500, fallbackSkills⟩
  | some (rs, rf) =>
    let skillsData :=
      match rs with
      | .ok d => extractSkillsPayload d
      | .notOk => []
    let frameworksData :=
      match rf with
      | .ok d => extractFrameworksPayload d
      | .notOk => []
    let combinedSkills := jsSetDedup (skillsData ++ frameworksData)
    ⟨200, if combinedSkills.length > 0 then combinedSkills else fallbackSkills⟩

/-! ## Helper lemmas -/

/-- Appending a fresh element to a duplicate-free list keeps it
duplicate-free. -/
lemma nodup_append_singleton (l : List String) (a : String) (ha : a ∉ l)
    (hl : l.Nodup) : (l ++ [a]).Nodup := by
  simp [List.nodup_append, hl, ha]

/-- `jsSetDedupGo seen l` is duplicate-free and avoids everything in
`seen`. -/
lemma jsSetDedupGo_spec :
    ∀ (l seen : List String),
      (jsSetDedupGo seen l).Nodup ∧ ∀ x ∈ jsSetDedupGo seen l, x ∉ seen := by
  intro l
  induction l with
  | nil => intro seen; simp [jsSetDedupGo]
  | cons x xs ih =>
    intro seen
    simp only [jsSetDedupGo]
    by_cases hx : x ∈ seen
    · rw [if_pos hx]
      exact ih seen
    · rw [if_neg hx]
      obtain ⟨hnd, hmem⟩ := ih (x :: seen)
      refine ⟨List.nodup_cons.2 ⟨fun hin => hmem x hin (List.mem_cons_self x seen), hnd⟩, ?_⟩
      intro y hy
      rcases List.mem_cons.1 hy with rfl | hy'
      · exact hx
      · exact fun hys => hmem y hy' (List.mem_cons_of_mem _ hys)

/-- JavaScript `Array.from(new Set(l))` never contains duplicates. -/
lemma jsSetDedup_nodup (l : List String) : (jsSetDedup l).Nodup :=
  (jsSetDedupGo_spec l []).1

/-- The category fold of `getAvailableSkillSuggestions` only ever appends
entries whose skills were filtered against `selected`, so every skill in
the result avoids `selected`. -/
lemma skillFoldInvariant (selected : List String) :
    ∀ (entries acc : List (String × List Skill)),
      (∀ p ∈ acc, ∀ sk ∈ p.2, sk.name ∉ selected) →
      ∀ p ∈ entries.foldl
          (fun acc p =>
            let availableSkills :=
              p.2.filter (fun sk => decide (sk.name ∉ selected))
            if availableSkills.length > 0 then acc ++ [(p.1, availableSkills)]
            else acc)
          acc,
        ∀ sk ∈ p.2, sk.name ∉ selected := by
  intro entries
  induction entries with
  | nil =>
    intro acc h
    simpa using h
  | cons e es ih =>
    intro acc h
    simp only [List.foldl_cons]
    apply ih
    intro p hp sk hsk
    by_cases hc :
        (e.2.filter (fun sk => decide (sk.name ∉ selected))).length > 0
    · rw [if_pos hc] at hp
      rcases List.mem_append.1 hp with h1 | h2
      · exact h p h1 sk hsk
      · have hpe : p = (e.1, e.2.filter (fun sk => decide (sk.name ∉ selected))) := by
          simpa using h2
        subst hpe
        have := List.mem_filter.1 hsk
        simpa using this.2
    · rw [if_neg hc] at hp
      exact h p hp sk hsk

/-! ## Claim theorems -/

/-- C1: for every request (any `answers` parameter), the career-match
handler's list is sorted by non-increasing `matchScore`, and it is exactly
the hard-coded `mockCareers` taxonomy, so candidates with equal scores
trivially keep the taxonomy's original order. -/
theorem career_match_sorted_and_stable (answers : Option String) :
    (careerMatchGET answers).careers = mockCareers ∧
    List.Pairwise (fun a b => b.matchScore ≤ a.matchScore)
      (careerMatchGET answers).careers := by
  refine ⟨rfl, ?_⟩
  show List.Pairwise (fun a b => b.matchScore ≤ a.matchScore) mockCareers
  decide

/-- C9: the career-match handler never reads the `answers` query
parameter's value; any two requests get identical responses (same titles,
scores, salary ranges and order). -/
theorem career_match_ignores_answers (a1 a2 : Option String) :
    careerMatchGET a1 = careerMatchGET a2 :=
  rfl

/-- C2: for every input role, the roadmap handler returns exactly three
tiers, in the fixed order Foundational, Intermediate, Advanced. -/
theorem roadmap_three_tiers (role : Option String) :
    (roadmapGET role).milestones.map RoadmapMilestone.level =
      ["Foundational", "Intermediate", "Advanced"] :=
  rfl

/-- C3 counterexample: the claim says an unresolvable target role makes
the operation fail with `UnknownRoleError` and that it never substitutes
an unrelated role.  The handler has no error path at all: with no role it
returns a successful roadmap for the substituted role "Software Engineer",
and with an arbitrary unrecognized role string it returns the same fixed
milestones labelled with that string. -/
theorem roadmap_unknown_role_counterexample :
    roadmapGET none =
      ⟨"Software Engineer", mockRoadmapMilestones⟩ ∧
    roadmapGET (some "Quantum Astrologer") =
      ⟨"Quantum Astrologer", mockRoadmapMilestones⟩ :=
  ⟨rfl, rfl⟩

/-- C3 amended: the roadmap handler never fails; it always returns the
fixed mock milestones, echoes a non-empty role parameter into the `role`
field, and silently substitutes "Software Engineer" when the parameter is
absent or empty. -/
theorem roadmap_role_fallback (role : Option String) :
    (roadmapGET role).milestones = mockRoadmapMilestones ∧
    ((role = none ∨ role = some "") →
      (roadmapGET role).role = "Software Engineer") ∧
    (∀ s, role = some s → s.isEmpty = false → (roadmapGET role).role = s) := by
  refine ⟨rfl, ?_, ?_⟩
  · rintro (rfl | rfl) <;> rfl
  · rintro s rfl hs
    simp [roadmapGET, jsOrDefault, hs]

/-- Witness for C3's amended theorem at concrete inputs. -/
theorem roadmap_role_fallback_witness :
    (roadmapGET none).role = "Software Engineer" ∧
    (roadmapGET (some "Data Scientist")).role = "Data Scientist" :=
  ⟨(roadmap_role_fallback none).2.1 (Or.inl rfl),
   (roadmap_role_fallback (some "Data Scientist")).2.2 "Data Scientist" rfl
     (by decide)⟩

/-- C4: for every component state, no suggestion group returned by
`getAvailableSkillSuggestions` contains a skill whose name is already in
the selected-skills list. -/
theorem skill_suggestions_exclude_selected (st : CareerPageState) :
    ∀ p ∈ getAvailableSkillSuggestions st, ∀ sk ∈ p.2,
      sk.name ∉ st.selectedSkills := by
  intro p hp
  unfold getAvailableSkillSuggestions at hp
  exact skillFoldInvariant st.selectedSkills groupedSkills []
    (by intro q hq; simp at hq) p hp

/-- Witness for C4: with "JavaScript" selected, the Technology suggestion
group is present, contains Python, and Python is indeed not selected. -/
theorem skill_suggestions_exclude_selected_witness :
    (("Technology",
        [(⟨"Python", "Technology", "Code"⟩ : Skill),
         ⟨"React", "Technology", "Code"⟩,
         ⟨"Node.js", "Technology", "Code"⟩,
         ⟨"SQL", "Technology", "BarChart3"⟩,
         ⟨"Machine Learning", "Technology", "Zap"⟩]) ∈
      getAvailableSkillSuggestions ⟨["JavaScript"], [], "", "", ""⟩) ∧
    ("Python" : String) ∉ ["JavaScript"] :=
  ⟨by decide,
   skill_suggestions_exclude_selected ⟨["JavaScript"], [], "", "", ""⟩
     ("Technology",
        [⟨"Python", "Technology", "Code"⟩,
         ⟨"React", "Technology", "Code"⟩,
         ⟨"Node.js", "Technology", "Code"⟩,
         ⟨"SQL", "Technology", "BarChart3"⟩,
         ⟨"Machine Learning", "Technology", "Zap"⟩])
     (by decide) ⟨"Python", "Technology", "Code"⟩ (by decide)⟩

/-- C7: starting from duplicate-free selections, every add and remove
operation of the career pages keeps both the skills and the interests
lists duplicate-free. -/
theorem selection_ops_preserve_nodup (skills interests : List String)
    (s i cs ci : String) (hs : skills.Nodup) (hi : interests.Nodup) :
    (addSkill skills s).Nodup ∧ (removeSkill skills s).Nodup ∧
    (addCustomSkill skills cs).Nodup ∧ (addInterest interests i).Nodup ∧
    (removeInterest interests i).Nodup ∧
    (addCustomInterest interests ci).Nodup := by
  refine ⟨?_, ?_, ?_, ?_, ?_, ?_⟩
  · unfold addSkill
    split
    · exact hs
    · exact nodup_append_singleton _ _ (by assumption) hs
  · exact hs.filter _
  · show (if ¬(cs.trim).isEmpty = true ∧ cs.trim ∉ skills
        then skills ++ [cs.trim] else skills).Nodup
    split
    · next h => exact nodup_append_singleton _ _ h.2 hs
    · exact hs
  · unfold addInterest
    split
    · exact hi
    · exact nodup_append_singleton _ _ (by assumption) hi
  · exact hi.filter _
  · show (if ¬(ci.trim).isEmpty = true ∧ ci.trim ∉ interests
        then interests ++ [ci.trim] else interests).Nodup
    split
    · next h => exact nodup_append_singleton _ _ h.2 hi
    · exact hi

/-- Witness for C7 at concrete duplicate-free selections. -/
theorem selection_ops_preserve_nodup_witness :
    (["React"] : List String).Nodup ∧ (["Design"] : List String).Nodup ∧
    (addSkill ["React"] "SQL").Nodup ∧ (removeSkill ["React"] "SQL").Nodup ∧
    (addCustomSkill ["React"] " Figma ").Nodup ∧
    (addInterest ["Design"] "Finance").Nodup ∧
    (removeInterest ["Design"] "Finance").Nodup ∧
    (addCustomInterest ["Design"] "Design").Nodup := by
  have h := selection_ops_preserve_nodup ["React"] ["Design"] "SQL" "Finance"
    " Figma " "Design" (by decide) (by decide)
  exact ⟨by decide, by decide, h.1, h.2.1, h.2.2.1, h.2.2.2.1,
    h.2.2.2.2.1, h.2.2.2.2.2⟩

/-- C8: `getAvailableSkillSuggestions` is a pure function of the selected
skills: any two component states that agree on `selectedSkills` (whatever
their other fields hold) produce identical suggestion groups — in
particular, two calls with identical inputs yield identical outputs. -/
theorem skill_suggestions_stateless (s1 s2 : CareerPageState)
    (h : s1.selectedSkills = s2.selectedSkills) :
    getAvailableSkillSuggestions s1 = getAvailableSkillSuggestions s2 := by
  unfold getAvailableSkillSuggestions
  rw [h]

/-- Witness for C8: two states equal on `selectedSkills` but different
everywhere else give the same suggestions. -/
theorem skill_suggestions_stateless_witness :
    (⟨["SQL"], [], "", "", ""⟩ : CareerPageState).selectedSkills =
      (⟨["SQL"], ["Design"], "a", "b", "CTO"⟩ : CareerPageState).selectedSkills ∧
    getAvailableSkillSuggestions ⟨["SQL"], [], "", "", ""⟩ =
      getAvailableSkillSuggestions ⟨["SQL"], ["Design"], "a", "b", "CTO"⟩ :=
  ⟨rfl, skill_suggestions_stateless _ _ rfl⟩

/-- C5 counterexample: the claim says an unreachable backend still yields
HTTP 200 and never a 5xx; but when the backend fetch throws (the
unreachable case), the interests handler's `catch` answers with status
500. -/
theorem interests_unreachable_counterexample :
    (interestsGET InterestsFetch.unreachable).status = 500 ∧
    (interestsGET InterestsFetch.unreachable).status ≠ 200 :=
  ⟨rfl, by decide⟩

/-- C5 amended: the interests handler degrades to HTTP 200 with the
fallback list flagged `source: "fallback"` only when the backend responds
with a non-OK status; when the fetch itself throws (backend unreachable)
it returns the fallback list unflagged with HTTP 500.  The client-side
dashboard fetch always completes with data and a null error, whatever the
backend outcomes. -/
theorem dashboard_degradation_behavior :
    (∀ ints : Option (List String),
        interestsGET (InterestsFetch.ok ints) = ⟨200, ints.getD [], none⟩) ∧
    interestsGET InterestsFetch.badStatus =
      ⟨200, fallbackInterests, some "fallback"⟩ ∧
    interestsGET InterestsFetch.unreachable =
      ⟨500, fallbackInterests, none⟩ ∧
    (∀ (sess : Option String) (pr rr : SettledOutcome) (threw : Bool),
        (fetchDashboardData sess pr rr threw).error = none ∧
        (fetchDashboardData sess pr rr threw).dashboardData.isSome = true) := by
  refine ⟨fun _ => rfl, rfl, rfl, ?_⟩
  intro sess pr rr threw
  cases sess <;> cases threw <;> simp [fetchDashboardData]

/-- C6: across the three write endpoints, a 400 status arises exactly when
a required field is missing (chat-save: `userId`, `conversationId`, a
non-empty `messages`; lesson-save: `lesson_id`, `user_id`, `file_name`;
chat-upload: the file); upstream/provider failures and handler exceptions
are answered with 500; and every response carries a `{message|error}`
body. -/
theorem write_endpoint_error_contract :
    (∀ b : ChatSaveBody,
        (chatSavePOST (some b)).status = 400 ↔
          (jsFalsy b.userId || jsFalsy b.conversationId ||
            msgsEmpty b.messages) = true) ∧
    (∀ (b : LessonSaveBody) (db : SupabaseOutcome),
        (lessonSavePOST b db).status = 400 ↔ lessonFieldsMissing b = true) ∧
    (∀ f : Option String,
        (chatUploadPOST (some f)).status = 400 ↔ f = none) ∧
    (∀ (b : LessonSaveBody) (m : String), lessonFieldsMissing b = false →
        (lessonSavePOST b (SupabaseOutcome.err m)).status = 500 ∧
        (lessonSavePOST b (SupabaseOutcome.err m)).hasErrBody = true) ∧
    (chatSavePOST none).status = 500 ∧
    (chatUploadPOST none).status = 500 ∧
    (∀ req, (chatSavePOST req).hasErrBody = true) ∧
    (∀ b db, (lessonSavePOST b db).hasErrBody = true) ∧
    (∀ req, (chatUploadPOST req).hasErrBody = true) := by
  refine ⟨?_, ?_, ?_, ?_, rfl, rfl, ?_, ?_, ?_⟩
  · intro b
    by_cases h1 : jsFalsy b.userId = true <;>
      by_cases h2 : jsFalsy b.conversationId = true <;>
        by_cases h3 : msgsEmpty b.messages = true <;>
          simp [chatSavePOST, h1, h2, h3]
  · intro b db
    by_cases h : lessonFieldsMissing b = true <;>
      cases db <;> simp [lessonSavePOST, h]
  · intro f
    cases f <;> simp [chatUploadPOST]
  · intro b m h
    simp [lessonSavePOST, h, ApiResponse.hasErrBody]
  · intro req
    match req with
    | none => rfl
    | some b =>
      by_cases h1 : jsFalsy b.userId = true <;>
        by_cases h2 : jsFalsy b.conversationId = true <;>
          by_cases h3 : msgsEmpty b.messages = true <;>
            simp [chatSavePOST, ApiResponse.hasErrBody, h1, h2, h3]
  · intro b db
    by_cases h : lessonFieldsMissing b = true <;>
      cases db <;> simp [lessonSavePOST, ApiResponse.hasErrBody, h]
  · intro req
    match req with
    | none => rfl
    | some none => rfl
    | some (some f) => rfl

/-- Witness for C6: the upstream-failure conjunct at a complete body and a
concrete database error. -/
theorem write_endpoint_error_contract_witness :
    lessonFieldsMissing ⟨some "L1", some "U1", some "F1", none, none⟩ =
      false ∧
    (lessonSavePOST ⟨some "L1", some "U1", some "F1", none, none⟩
        (SupabaseOutcome.err "connection refused")).status = 500 ∧
    (lessonSavePOST ⟨some "L1", some "U1", some "F1", none, none⟩
        (SupabaseOutcome.err "connection refused")).hasErrBody = true := by
  have h := write_endpoint_error_contract
  have hmiss : lessonFieldsMissing
      ⟨some "L1", some "U1", some "F1", none, none⟩ = false := by decide
  have hc := h.2.2.2.1 ⟨some "L1", some "U1", some "F1", none, none⟩
    "connection refused" hmiss
  exact ⟨hmiss, hc.1, hc.2⟩

/-- C10: whatever the two upstream fetches return (including a thrown
error), the skills handler's list is duplicate-free and non-empty: the
union is deduplicated through a JavaScript `Set`, and an empty union or an
exception is replaced by the fixed fallback list. -/
theorem skills_list_nodup_nonempty (r : Option (FetchResult × FetchResult)) :
    (skillsGET r).skills.Nodup ∧ (skillsGET r).skills ≠ [] := by
  match r with
  | none => exact ⟨by decide, by decide⟩
  | some (rs, rf) =>
    show (if (jsSetDedup _).length > 0 then jsSetDedup _
        else fallbackSkills).Nodup ∧
      (if (jsSetDedup _).length > 0 then jsSetDedup _
        else fallbackSkills) ≠ []
    constructor
    · split
      · exact jsSetDedup_nodup _
      · decide
    · split
      · next h => exact List.ne_nil_of_length_pos h
      · decide
